import Mathlib

/-!
Verification of the natural-language specification of the
`BrianOtieno/quantum-computing` repository against its source.

The repository is a set of standalone Jupyter notebooks.  The development
below embeds, faithfully to the source:

* the circuit-building calls the notebooks make (`QuantumCircuit`, gate
  methods, `copy`, `measure_all`), together with a small object heap so
  that the mutation/aliasing behaviour of the Python objects is explicit;
* the author-written functions of `0023-quantum-state-tomography.ipynb`
  (`prepare_state`, `measure_in_bases`, `expectation_value`) and its
  density-matrix reconstruction `rho`;
* the ideal single-qubit simulator semantics needed for the
  Hadamard-then-measure circuits of notebooks `0001` and `0014`;
* per-notebook metadata (imports, author-defined functions and classes,
  loops, exception handling, circuit sizes, simulator call sites, plotting
  calls) transcribed cell by cell from each notebook, over which the
  repository-wide claims of the specification are stated.
-/

/-- Gates and instructions appended to circuits by the notebooks.  Each
constructor records the qubit (and classical-bit) arguments of the
corresponding qiskit call. -/
inductive Gate where
  | h (q : Nat)
  | s (q : Nat)
  | sdg (q : Nat)
  | x (q : Nat)
  | z (q : Nat)
  | cz (q1 q2 : Nat)
  | rx (theta : String) (q : Nat)
  | measure (q c : Nat)
  | measureAll
deriving DecidableEq, Repr

/-- A qiskit `QuantumCircuit`: a number of qubits, a number of classical
bits, and the ordered list of appended instructions. -/
structure Circuit where
  numQubits : Nat
  numClbits : Nat
  gates : List Gate
deriving DecidableEq, Repr

/-- Appending an instruction to a circuit (the effect of every qiskit gate
method call in the notebooks). -/
def Circuit.addGate (c : Circuit) (g : Gate) : Circuit :=
  ⟨c.numQubits, c.numClbits, c.gates ++ [g]⟩

/-- The `QuantumCircuit(nq, nc)` constructor: an empty circuit. -/
def QuantumCircuit (nq nc : Nat) : Circuit := ⟨nq, nc, []⟩

/-- `qc.h(q)` appends a Hadamard gate. -/
def Circuit.h (c : Circuit) (q : Nat) : Circuit := c.addGate (Gate.h q)

/-- `qc.s(q)` appends an S gate. -/
def Circuit.s (c : Circuit) (q : Nat) : Circuit := c.addGate (Gate.s q)

/-- `qc.sdg(q)` appends an S-dagger gate. -/
def Circuit.sdg (c : Circuit) (q : Nat) : Circuit := c.addGate (Gate.sdg q)

/-- `qc.x(q)` appends a Pauli-X gate. -/
def Circuit.x (c : Circuit) (q : Nat) : Circuit := c.addGate (Gate.x q)

/-- `qc.z(q)` appends a Pauli-Z gate. -/
def Circuit.z (c : Circuit) (q : Nat) : Circuit := c.addGate (Gate.z q)

/-- `qc.measure(q, c)` appends a measurement of qubit `q` into classical
bit `c`. -/
def Circuit.measure (c : Circuit) (q cl : Nat) : Circuit :=
  c.addGate (Gate.measure q cl)

/-- `qc.measure_all()` appends a measurement of every qubit. -/
def Circuit.measure_all (c : Circuit) : Circuit := c.addGate Gate.measureAll

/-- `qc.copy()` produces a fresh circuit object with the same contents;
the value copied is the receiver's current state. -/
def Circuit.copy (c : Circuit) : Circuit := c

/-- `prepare_state` from `0023-quantum-state-tomography.ipynb`:
`qc = QuantumCircuit(1); qc.h(0); qc.s(0); return qc`. -/
def prepare_state : Circuit := ((QuantumCircuit 1 0).h 0).s 0

/-- An object heap of circuit objects, so that Python's reference/mutation
semantics (`circuit.copy()` versus in-place gate appends) is explicit.
References are positions in the list. -/
abbrev Heap := List Circuit

/-- Dereference a circuit object. -/
def Heap.read (hp : Heap) (r : Nat) : Circuit := hp.getD r (QuantumCircuit 0 0)

/-- Allocate a new circuit object, returning the extended heap and the
fresh reference. -/
def Heap.alloc (hp : Heap) (c : Circuit) : Heap × Nat := (hp ++ [c], hp.length)

/-- Overwrite the object at reference `r` (an in-place mutation such as
`qc.h(0)`). -/
def Heap.write (hp : Heap) (r : Nat) (c : Circuit) : Heap := hp.set r c

/-- `measure_in_bases` from `0023-quantum-state-tomography.ipynb`,
transcribed statement by statement over the object heap.  Each
`qc_b = circuit.copy()` allocates a fresh object; each gate call mutates
the object it is called on; `circuits.append(...)` records the reference.
Returns the final heap and the list `circuits`. -/
def measure_in_bases (hp0 : Heap) (circuit : Nat) : Heap × List Nat :=
  let circuits : List Nat := []
  -- Measure in X basis
  let (hp1, qc_x) := hp0.alloc ((hp0.read circuit).copy)
  let hp2 := hp1.write qc_x ((hp1.read qc_x).h 0)
  let hp3 := hp2.write qc_x ((hp2.read qc_x).measure_all)
  let circuits := circuits ++ [qc_x]
  -- Measure in Y basis
  let (hp4, qc_y) := hp3.alloc ((hp3.read circuit).copy)
  let hp5 := hp4.write qc_y ((hp4.read qc_y).sdg 0)
  let hp6 := hp5.write qc_y ((hp5.read qc_y).h 0)
  let hp7 := hp6.write qc_y ((hp6.read qc_y).measure_all)
  let circuits := circuits ++ [qc_y]
  -- Measure in Z basis
  let (hp8, qc_z) := hp7.alloc ((hp7.read circuit).copy)
  let hp9 := hp8.write qc_z ((hp8.read qc_z).measure_all)
  let circuits := circuits ++ [qc_z]
  (hp9, circuits)

/-- A qiskit counts dictionary, as consumed by `expectation_value`:
an association list from outcome bitstrings to occurrence counts
(keys are unique, as in a Python dict). -/
abbrev Counts := List (String × Nat)

/-- `sum(counts.values())`. -/
def countsShots (counts : Counts) : Nat := (counts.map Prod.snd).sum

/-- `'k' in counts`. -/
def countsHasKey (counts : Counts) (k : String) : Bool := (counts.lookup k).isSome

/-- `counts['k']`, defaulting to `0` when the key is absent (the source
only indexes keys it has just tested for membership). -/
def countsGet (counts : Counts) (k : String) : Nat := (counts.lookup k).getD 0

/-- `expectation_value` from `0023-quantum-state-tomography.ipynb`:

`shots = sum(counts.values())`; `exp_value = 0`;
`if '0' in counts: exp_value += counts['0'] / shots`;
`if '1' in counts: exp_value -= counts['1'] / shots`; `return exp_value`.

Division is exact rational division; a Python `ZeroDivisionError`
(division when `shots = 0`) is modelled by `none`. -/
def expectation_value (counts : Counts) : Option ℚ :=
  let shots := countsShots counts
  let afterZero : Option ℚ :=
    if countsHasKey counts "0" then
      if shots = 0 then none
      else some (0 + (countsGet counts "0" : ℚ) / (shots : ℚ))
    else some 0
  match afterZero with
  | none => none
  | some e =>
      if countsHasKey counts "1" then
        if shots = 0 then none
        else some (e - (countsGet counts "1" : ℚ) / (shots : ℚ))
      else some e

/-- Pauli-X matrix, `np.array([[0, 1], [1, 0]])` in the notebook. -/
def pauliX : Matrix (Fin 2) (Fin 2) ℂ := !![0, 1; 1, 0]

/-- Pauli-Y matrix, `np.array([[0, -1j], [1j, 0]])` in the notebook. -/
def pauliY : Matrix (Fin 2) (Fin 2) ℂ := !![0, -Complex.I; Complex.I, 0]

/-- Pauli-Z matrix, `np.array([[1, 0], [0, -1]])` in the notebook. -/
def pauliZ : Matrix (Fin 2) (Fin 2) ℂ := !![1, 0; 0, -1]

/-- The reconstructed density matrix of
`0023-quantum-state-tomography.ipynb`:
`rho = 0.5 * (np.eye(2) + r_x * X + r_y * Y + r_z * Z)`, for real Bloch
components `r_x, r_y, r_z`. -/
noncomputable def rho (r_x r_y r_z : ℝ) : Matrix (Fin 2) (Fin 2) ℂ :=
  (1 / 2 : ℂ) • (1 + (r_x : ℂ) • pauliX + (r_y : ℂ) • pauliY + (r_z : ℂ) • pauliZ)

/-- The unitary the ideal simulator applies for each single-qubit gate of
the notebooks; final measurement instructions do not change the
statevector that determines the outcome distribution, so they act as the
identity here. -/
noncomputable def gateMatrix : Gate → Matrix (Fin 2) (Fin 2) ℂ
  | Gate.h _ => (((Real.sqrt 2)⁻¹ : ℝ) : ℂ) • !![1, 1; 1, -1]
  | Gate.s _ => !![1, 0; 0, Complex.I]
  | Gate.sdg _ => !![1, 0; 0, -Complex.I]
  | Gate.x _ => !![0, 1; 1, 0]
  | Gate.z _ => !![1, 0; 0, -1]
  | _ => 1

/-- The initial statevector `|0⟩` of the simulator. -/
def ket0 : Fin 2 → ℂ := fun i => if i = 0 then 1 else 0

/-- Ideal simulator semantics of a single-qubit circuit: apply each
instruction's matrix to the statevector in order. -/
noncomputable def runStatevector (c : Circuit) : Fin 2 → ℂ :=
  c.gates.foldl (fun psi g => (gateMatrix g).mulVec psi) ket0

/-- The ideal probability of reading outcome `b` when the circuit's final
measurement is performed: the Born rule on the final statevector. -/
noncomputable def outcomeProb (c : Circuit) (b : Fin 2) : ℝ :=
  Complex.normSq (runStatevector c b)

/-- The circuit of `0001-basic-quantum-circuit.ipynb`:
`qc = QuantumCircuit(1, 1); qc.h(0); qc.measure(0, 0)`. -/
def qc0001 : Circuit := ((QuantumCircuit 1 1).h 0).measure 0 0

/-- The circuit of `0014-quantum-random-number-generator.ipynb`:
`qc = QuantumCircuit(1, 1); qc.h(0); qc.measure(0, 0)`. -/
def qc0014 : Circuit := ((QuantumCircuit 1 1).h 0).measure 0 0

/-- Per-notebook metadata, transcribed cell by cell from the notebook's
code cells.  `pyImports` lists the top-level modules of all `import`/`from`
statements; `defFuns` and `defClasses` the author-defined `def` and
`class` statements; `forLoops` the author-written `for` statements;
`tryExcepts`, `raises` and `customErrorTypes` count exception handlers,
raise statements and author-defined exception classes; `circuitQubits`
lists the qubit count of every circuit/device the notebook constructs;
`simCallSites` counts the expressions that execute circuits on a
backend (simulator/estimator/sampler runs); `simInsideAuthorLoop` records
whether such an execution happens inside author-written iteration;
`simRepeatedPerResult` whether the backend is invoked repeatedly to
produce one result (optimizer-driven loops); `plotCalls` counts
matplotlib-rendered outputs; `buildsCircuitFirst` whether circuit
construction precedes every simulation; `concurrencyPrimitives` counts
uses of threading/asyncio/multiprocessing; `unresolvedJobs` counts
backend jobs whose result is never taken synchronously. -/
structure Notebook where
  name : String
  pyImports : List String
  defFuns : List String
  defClasses : List String
  forLoops : Nat
  tryExcepts : Nat
  raises : Nat
  customErrorTypes : Nat
  circuitQubits : List Nat
  simCallSites : Nat
  simInsideAuthorLoop : Bool
  simRepeatedPerResult : Bool
  plotCalls : Nat
  buildsCircuitFirst : Bool
  concurrencyPrimitives : Nat
  unresolvedJobs : Nat
deriving DecidableEq, Repr

/-- `0001-basic-quantum-circuit.ipynb`: H on one qubit, measure, run,
histogram. -/
def notebook0001 : Notebook :=
  { name := "0001-basic-quantum-circuit.ipynb"
    pyImports := ["qiskit", "qiskit_aer", "matplotlib"]
    defFuns := []
    defClasses := []
    forLoops := 0
    tryExcepts := 0
    raises := 0
    customErrorTypes := 0
    circuitQubits := [1]
    simCallSites := 1
    simInsideAuthorLoop := false
    simRepeatedPerResult := false
    plotCalls := 2
    buildsCircuitFirst := true
    concurrencyPrimitives := 0
    unresolvedJobs := 0 }

/-- `0005-quantum-gates.ipynb`: X, H, Z on one qubit, measure, run,
histogram. -/
def notebook0005 : Notebook :=
  { name := "0005-quantum-gates.ipynb"
    pyImports := ["qiskit", "qiskit_aer", "matplotlib"]
    defFuns := []
    defClasses := []
    forLoops := 0
    tryExcepts := 0
    raises := 0
    customErrorTypes := 0
    circuitQubits := [1]
    simCallSites := 1
    simInsideAuthorLoop := false
    simRepeatedPerResult := false
    plotCalls := 2
    buildsCircuitFirst := true
    concurrencyPrimitives := 0
    unresolvedJobs := 0 }

/-- `0012-varitional-quantum-eigensolver.ipynb`: author-defined
`objective_function` runs the estimator; `optimizer.minimize` (COBYLA,
maxiter 200) invokes it repeatedly for the one minimization result. -/
def notebook0012 : Notebook :=
  { name := "0012-varitional-quantum-eigensolver.ipynb"
    pyImports := ["qiskit", "qiskit_aer", "qiskit_algorithms", "numpy", "matplotlib"]
    defFuns := ["objective_function"]
    defClasses := []
    forLoops := 0
    tryExcepts := 0
    raises := 0
    customErrorTypes := 0
    circuitQubits := [2]
    simCallSites := 1
    simInsideAuthorLoop := false
    simRepeatedPerResult := true
    plotCalls := 1
    buildsCircuitFirst := true
    concurrencyPrimitives := 0
    unresolvedJobs := 0 }

/-- `0014-quantum-random-number-generator.ipynb`: H on one qubit,
measure, run with 1024 shots, histogram. -/
def notebook0014 : Notebook :=
  { name := "0014-quantum-random-number-generator.ipynb"
    pyImports := ["qiskit", "qiskit_aer", "matplotlib"]
    defFuns := []
    defClasses := []
    forLoops := 0
    tryExcepts := 0
    raises := 0
    customErrorTypes := 0
    circuitQubits := [1]
    simCallSites := 1
    simInsideAuthorLoop := false
    simRepeatedPerResult := false
    plotCalls := 3
    buildsCircuitFirst := true
    concurrencyPrimitives := 0
    unresolvedJobs := 0 }

/-- `0018-quantum-image-processing.ipynb`: two-qubit amplitude encoding;
the backend is run twice (statevector run, then measurement run). -/
def notebook0018 : Notebook :=
  { name := "0018-quantum-image-processing.ipynb"
    pyImports := ["numpy", "qiskit", "qiskit_aer", "matplotlib"]
    defFuns := []
    defClasses := []
    forLoops := 0
    tryExcepts := 0
    raises := 0
    customErrorTypes := 0
    circuitQubits := [2]
    simCallSites := 2
    simInsideAuthorLoop := false
    simRepeatedPerResult := false
    plotCalls := 2
    buildsCircuitFirst := true
    concurrencyPrimitives := 0
    unresolvedJobs := 0 }

/-- `0019-quantum-principal-component-analysis.ipynb`: two-qubit
eigenvector encoding; the backend is run twice (statevector run, then
measurement run). -/
def notebook0019 : Notebook :=
  { name := "0019-quantum-principal-component-analysis.ipynb"
    pyImports := ["numpy", "qiskit", "qiskit_aer", "matplotlib"]
    defFuns := []
    defClasses := []
    forLoops := 0
    tryExcepts := 0
    raises := 0
    customErrorTypes := 0
    circuitQubits := [2]
    simCallSites := 2
    simInsideAuthorLoop := false
    simRepeatedPerResult := false
    plotCalls := 2
    buildsCircuitFirst := true
    concurrencyPrimitives := 0
    unresolvedJobs := 0 }

/-- `0021-quantum-amplitude-amplification.ipynb`: author-defined `oracle`
and `diffusion_operator` build two-qubit circuits appended to the main
circuit. -/
def notebook0021 : Notebook :=
  { name := "0021-quantum-amplitude-amplification.ipynb"
    pyImports := ["numpy", "qiskit", "qiskit_aer", "matplotlib"]
    defFuns := ["oracle", "diffusion_operator"]
    defClasses := []
    forLoops := 0
    tryExcepts := 0
    raises := 0
    customErrorTypes := 0
    circuitQubits := [2, 2, 2]
    simCallSites := 1
    simInsideAuthorLoop := false
    simRepeatedPerResult := false
    plotCalls := 2
    buildsCircuitFirst := true
    concurrencyPrimitives := 0
    unresolvedJobs := 0 }

/-- `0023-quantum-state-tomography.ipynb`: author-defined
`prepare_state`, `measure_in_bases`, `expectation_value`; one batched
simulator run of the three measurement circuits. -/
def notebook0023 : Notebook :=
  { name := "0023-quantum-state-tomography.ipynb"
    pyImports := ["qiskit", "numpy", "matplotlib", "warnings", "qiskit_aer"]
    defFuns := ["prepare_state", "measure_in_bases", "expectation_value"]
    defClasses := []
    forLoops := 0
    tryExcepts := 0
    raises := 0
    customErrorTypes := 0
    circuitQubits := [1]
    simCallSites := 1
    simInsideAuthorLoop := false
    simRepeatedPerResult := false
    plotCalls := 3
    buildsCircuitFirst := true
    concurrencyPrimitives := 0
    unresolvedJobs := 0 }

/-- `0027-quantum-ml-with-pennylane.ipynb`: author-defined qnode
`circuit` and `cost`; the device is executed inside an author-written
training loop (and inside a list comprehension in `cost`); the only
drawing is a text diagram, so there is no plotting call. -/
def notebook0027 : Notebook :=
  { name := "0027-quantum-ml-with-pennylane.ipynb"
    pyImports := ["pennylane", "qiskit_aer", "matplotlib"]
    defFuns := ["circuit", "cost"]
    defClasses := []
    forLoops := 1
    tryExcepts := 0
    raises := 0
    customErrorTypes := 0
    circuitQubits := [2]
    simCallSites := 1
    simInsideAuthorLoop := true
    simRepeatedPerResult := true
    plotCalls := 0
    buildsCircuitFirst := true
    concurrencyPrimitives := 0
    unresolvedJobs := 0 }

/-- `0050-qnn-econophysics-economic-forecasting.ipynb`: author-defined
class `QuantumNeuralNetwork`; the sampler QNN is executed inside an
author-written epoch loop. -/
def notebook0050 : Notebook :=
  { name := "0050-qnn-econophysics-economic-forecasting.ipynb"
    pyImports := ["numpy", "torch", "qiskit", "qiskit_aer", "qiskit_machine_learning", "matplotlib", "warnings"]
    defFuns := []
    defClasses := ["QuantumNeuralNetwork"]
    forLoops := 2
    tryExcepts := 0
    raises := 0
    customErrorTypes := 0
    circuitQubits := [4]
    simCallSites := 1
    simInsideAuthorLoop := true
    simRepeatedPerResult := true
    plotCalls := 1
    buildsCircuitFirst := true
    concurrencyPrimitives := 0
    unresolvedJobs := 0 }

/-- `0055-chemistry-ccsd.ipynb`: VQE over a two-qubit Hamiltonian; the
library's `vqe.compute_minimum_eigenvalue` invokes the estimator
repeatedly for the one eigenvalue result. -/
def notebook0055 : Notebook :=
  { name := "0055-chemistry-ccsd.ipynb"
    pyImports := ["qiskit", "qiskit_aer", "qiskit_algorithms", "matplotlib"]
    defFuns := []
    defClasses := []
    forLoops := 0
    tryExcepts := 0
    raises := 0
    customErrorTypes := 0
    circuitQubits := [2]
    simCallSites := 1
    simInsideAuthorLoop := false
    simRepeatedPerResult := true
    plotCalls := 1
    buildsCircuitFirst := true
    concurrencyPrimitives := 0
    unresolvedJobs := 0 }

/-- `0065-quantum-chemistry-simulation-symmetry-adapted-circuit.ipynb`:
author-defined `create_symmetry_adapted_circuit`; one simulator run of
the measured circuit. -/
def notebook0065 : Notebook :=
  { name := "0065-quantum-chemistry-simulation-symmetry-adapted-circuit.ipynb"
    pyImports := ["numpy", "qiskit", "qiskit_aer", "qiskit_algorithms", "matplotlib"]
    defFuns := ["create_symmetry_adapted_circuit"]
    defClasses := []
    forLoops := 0
    tryExcepts := 0
    raises := 0
    customErrorTypes := 0
    circuitQubits := [2, 2, 2]
    simCallSites := 1
    simInsideAuthorLoop := false
    simRepeatedPerResult := false
    plotCalls := 2
    buildsCircuitFirst := true
    concurrencyPrimitives := 0
    unresolvedJobs := 0 }

/-- `src/unnamed/part_000` (polariton chemistry): two-qubit Trotterized
time evolution; `TrotterQRTE()` is built without an estimator, so
`trotter.evolve` only composes the evolved circuit and runs no backend
(the cell's `AerSimulator()` instance is never used); the one backend
invocation is the `estimator.run` call for the energy. -/
def notebookPart000 : Notebook :=
  { name := "unnamed/part_000"
    pyImports := ["qiskit", "qiskit_algorithms", "qiskit_aer", "matplotlib", "numpy", "warnings"]
    defFuns := []
    defClasses := []
    forLoops := 0
    tryExcepts := 0
    raises := 0
    customErrorTypes := 0
    circuitQubits := [2]
    simCallSites := 1
    simInsideAuthorLoop := false
    simRepeatedPerResult := false
    plotCalls := 1
    buildsCircuitFirst := true
    concurrencyPrimitives := 0
    unresolvedJobs := 0 }

/-- `src/unnamed/part_001` (Grover search): author-defined
`grover_oracle`; one simulator run. -/
def notebookPart001 : Notebook :=
  { name := "unnamed/part_001"
    pyImports := ["qiskit", "qiskit_aer", "matplotlib"]
    defFuns := ["grover_oracle"]
    defClasses := []
    forLoops := 0
    tryExcepts := 0
    raises := 0
    customErrorTypes := 0
    circuitQubits := [2]
    simCallSites := 1
    simInsideAuthorLoop := false
    simRepeatedPerResult := false
    plotCalls := 2
    buildsCircuitFirst := true
    concurrencyPrimitives := 0
    unresolvedJobs := 0 }

/-- All notebooks of the repository, in filename order. -/
def repoNotebooks : List Notebook :=
  [notebook0001, notebook0005, notebook0012, notebook0014, notebook0018,
   notebook0019, notebook0021, notebook0023, notebook0027, notebook0050,
   notebook0055, notebook0065, notebookPart000, notebookPart001]

/-- C5: no notebook catches, wraps or re-raises exceptions and none
defines a custom error type, so SDK failures propagate unhandled. -/
theorem no_error_handling_in_notebooks :
    ∀ nb ∈ repoNotebooks,
      nb.tryExcepts = 0 ∧ nb.raises = 0 ∧ nb.customErrorTypes = 0 := by decide

/-- C5 (witness): applied to the tomography notebook, the one that also
suppresses warnings (which is not exception handling). -/
theorem no_error_handling_in_notebooks_witness :
    notebook0023.tryExcepts = 0 ∧ notebook0023.raises = 0 ∧
    notebook0023.customErrorTypes = 0 :=
  no_error_handling_in_notebooks notebook0023 (by decide)

/-- C6: no notebook uses any concurrency primitive, and every backend
job is resolved synchronously (its result is taken immediately), so all
simulation calls are synchronous single invocations with no task
scheduling and no state shared between concurrent tasks. -/
theorem no_concurrency_in_notebooks :
    ∀ nb ∈ repoNotebooks,
      nb.concurrencyPrimitives = 0 ∧ nb.unresolvedJobs = 0 := by decide

/-- C6 (witness): applied to the polariton notebook, the one with the
Trotterized time evolution and the estimator run. -/
theorem no_concurrency_in_notebooks_witness :
    notebookPart000.concurrencyPrimitives = 0 ∧ notebookPart000.unresolvedJobs = 0 :=
  no_concurrency_in_notebooks notebookPart000 (by decide)

/-- C9: `measure_in_bases`, run on a heap holding any input circuit `c`,
returns references to exactly three freshly allocated circuits, in the
fixed order X basis (`h 0` then `measure_all`), Y basis (`sdg 0`, `h 0`,
`measure_all`), Z basis (`measure_all` only), each built from a copy
of the input; and the input object at reference 0 is left unchanged. -/
theorem measure_in_bases_spec (c : Circuit) :
    measure_in_bases [c] 0 =
      ([c, (c.h 0).measure_all, ((c.sdg 0).h 0).measure_all, c.measure_all],
        [1, 2, 3]) ∧
    (measure_in_bases [c] 0).2.length = 3 ∧
    Heap.read (measure_in_bases [c] 0).1 0 = c :=
  ⟨rfl, rfl, rfl⟩

/-- C10: for all real Bloch components, the reconstructed density matrix
`rho = 0.5 * (I + r_x X + r_y Y + r_z Z)` is Hermitian and has trace
exactly 1, whatever counts the components were computed from. -/
theorem rho_hermitian_trace_one (r_x r_y r_z : ℝ) :
    (rho r_x r_y r_z).IsHermitian ∧ Matrix.trace (rho r_x r_y r_z) = 1 := by
  constructor
  · show (rho r_x r_y r_z).conjTranspose = rho r_x r_y r_z
    ext i j
    rw [Matrix.conjTranspose_apply]
    fin_cases i <;> fin_cases j <;>
      simp [rho, pauliX, pauliY, pauliZ, Matrix.add_apply, Matrix.smul_apply,
        Matrix.one_apply, Complex.conj_ofReal, map_add, map_mul, Complex.ext_iff]
  · simp [rho, Matrix.trace_smul, Matrix.trace_add, pauliX, pauliY, pauliZ,
      Matrix.trace_fin_two, Matrix.smul_apply]

/-- C4: for the Hadamard-then-measure single-qubit circuit of the
superposition and QRNG notebooks (`0001`, `0014`), the ideal simulator
assigns probability 1/2 to each of the outcomes 0 and 1, which is why the
observed fractions of 0s and 1s each converge to about 0.5 over many
shots. -/
theorem hadamard_measurement_uniform :
    outcomeProb qc0001 0 = 1 / 2 ∧ outcomeProb qc0001 1 = 1 / 2 ∧
    outcomeProb qc0014 0 = 1 / 2 ∧ outcomeProb qc0014 1 = 1 / 2 := by
  have hrun : runStatevector qc0001 = (gateMatrix (Gate.h 0)).mulVec ket0 := by
    show (gateMatrix (Gate.measure 0 0)).mulVec ((gateMatrix (Gate.h 0)).mulVec ket0) = _
    rw [show gateMatrix (Gate.measure 0 0) = 1 from rfl, Matrix.one_mulVec]
  have key : ∀ b : Fin 2, outcomeProb qc0001 b = 1 / 2 := by
    intro b
    have hb : (gateMatrix (Gate.h 0)).mulVec ket0 b = (((Real.sqrt 2)⁻¹ : ℝ) : ℂ) := by
      fin_cases b <;>
        simp [gateMatrix, Matrix.mulVec, Matrix.dotProduct, ket0, Fin.sum_univ_two,
          Matrix.smul_apply, Matrix.cons_val_zero, Matrix.cons_val_one, Matrix.head_cons]
    show Complex.normSq (runStatevector qc0001 b) = 1 / 2
    rw [hrun, hb, Complex.normSq_ofReal, ← mul_inv,
      Real.mul_self_sqrt (by norm_num : (0:ℝ) ≤ 2)]
    norm_num
  exact ⟨key 0, key 1, key 0, key 1⟩

theorem lookup_eq_none_of_not_mem_keys {l : Counts} {k : String}
    (h : k ∉ l.map Prod.fst) : l.lookup k = none := by
  induction l with
  | nil => rfl
  | cons p t ih =>
      simp only [List.map_cons, List.mem_cons, not_or] at h
      have hk : (k == p.1) = false := beq_eq_false_iff_ne.mpr h.1
      cases p with
      | mk a v => simpa [List.lookup, hk] using ih h.2

theorem countsGet_eq_zero_of_not_hasKey {l : Counts} {k : String}
    (h : countsHasKey l k = false) : countsGet l k = 0 := by
  unfold countsHasKey at h
  unfold countsGet
  cases hl : List.lookup k l with
  | none => rfl
  | some v => rw [hl] at h; simp at h

theorem countsShots_eq_get_add_get {l : Counts}
    (hnd : (l.map Prod.fst).Nodup)
    (hsub : ∀ k ∈ l.map Prod.fst, k = "0" ∨ k = "1") :
    countsShots l = countsGet l "0" + countsGet l "1" := by
  induction l with
  | nil => rfl
  | cons p t ih =>
      cases p with
      | mk a v =>
        simp only [List.map_cons, List.nodup_cons] at hnd
        have hsub' : ∀ k ∈ t.map Prod.fst, k = "0" ∨ k = "1" := by
          intro k hk; exact hsub k (by simp [hk])
        have htail := ih hnd.2 hsub'
        have ha := hsub a (by simp)
        rcases ha with h0 | h1
        · subst h0
          have hz : List.lookup "0" t = none :=
            lookup_eq_none_of_not_mem_keys hnd.1
          have hone : List.lookup "1" (("0", v) :: t) = List.lookup "1" t := by
            simp [List.lookup, show (("1" : String) == "0") = false from by decide]
          have hzc : List.lookup "0" (("0", v) :: t) = some v := by
            simp [List.lookup]
          unfold countsShots countsGet at htail ⊢
          simp only [List.map_cons, List.sum_cons, hzc, hone, hz,
            Option.getD_some, Option.getD_none] at htail ⊢
          omega
        · subst h1
          have hz : List.lookup "1" t = none :=
            lookup_eq_none_of_not_mem_keys hnd.1
          have hzero : List.lookup "0" (("1", v) :: t) = List.lookup "0" t := by
            simp [List.lookup, show (("0" : String) == "1") = false from by decide]
          have honec : List.lookup "1" (("1", v) :: t) = some v := by
            simp [List.lookup]
          unfold countsShots countsGet at htail ⊢
          simp only [List.map_cons, List.sum_cons, honec, hzero, hz,
            Option.getD_some, Option.getD_none] at htail ⊢
          omega

/-- C8 (counterexample): the conjunct that an empty counts dictionary
makes `expectation_value` fail with a division by zero is false: on the
empty dictionary neither key test succeeds, no division is attempted,
and the function returns 0. -/
theorem expectation_value_empty_counterexample :
    expectation_value ([] : Counts) = some 0 := rfl

/-- C8 (amended): for every counts dictionary whose keys are a subset of
`{"0", "1"}` (with unique keys, as in a Python dict) and whose values
sum to a positive total, `expectation_value` returns
`(counts["0"] - counts["1"]) / total` (a missing key counting as 0) and
the result lies in `[-1, 1]`; for a NON-EMPTY dictionary whose values
sum to zero the division by zero makes the function fail; for an EMPTY
dictionary no division is attempted and the function returns 0. -/
theorem expectation_value_spec (counts : Counts)
    (hnd : (counts.map Prod.fst).Nodup)
    (hsub : ∀ k ∈ counts.map Prod.fst, k = "0" ∨ k = "1") :
    (0 < countsShots counts →
        expectation_value counts =
          some (((countsGet counts "0" : ℚ) - (countsGet counts "1" : ℚ)) /
            (countsShots counts : ℚ)) ∧
        -1 ≤ ((countsGet counts "0" : ℚ) - (countsGet counts "1" : ℚ)) /
            (countsShots counts : ℚ) ∧
        ((countsGet counts "0" : ℚ) - (countsGet counts "1" : ℚ)) /
            (countsShots counts : ℚ) ≤ 1) ∧
    (counts = [] → expectation_value counts = some 0) ∧
    (counts ≠ [] → countsShots counts = 0 → expectation_value counts = none) := by
  have hS := countsShots_eq_get_add_get hnd hsub
  refine ⟨?_, ?_, ?_⟩
  · intro hpos
    have hSne : ¬(countsShots counts = 0) := Nat.pos_iff_ne_zero.mp hpos
    have hSQpos : (0 : ℚ) < (countsShots counts : ℚ) := by exact_mod_cast hpos
    have hc0 : (0 : ℚ) ≤ (countsGet counts "0" : ℚ) := Nat.cast_nonneg _
    have hc1 : (0 : ℚ) ≤ (countsGet counts "1" : ℚ) := Nat.cast_nonneg _
    have hSQ : ((countsShots counts : ℚ)) =
        (countsGet counts "0" : ℚ) + (countsGet counts "1" : ℚ) := by
      exact_mod_cast hS
    refine ⟨?_, ?_, ?_⟩
    · by_cases h0 : countsHasKey counts "0" = true
      · by_cases h1 : countsHasKey counts "1" = true
        · simp only [expectation_value, h0, h1, hSne, if_true, if_false,
            ite_true, ite_false, eq_self_iff_true, Option.some.injEq]
          rw [zero_add, div_sub_div_same]
        · have h1f : countsHasKey counts "1" = false := by
            revert h1; cases countsHasKey counts "1" <;> simp
          have hc1z : countsGet counts "1" = 0 :=
            countsGet_eq_zero_of_not_hasKey h1f
          simp [expectation_value, h0, h1f, hSne, hc1z]
      · have h0f : countsHasKey counts "0" = false := by
          revert h0; cases countsHasKey counts "0" <;> simp
        have hc0z : countsGet counts "0" = 0 :=
          countsGet_eq_zero_of_not_hasKey h0f
        by_cases h1 : countsHasKey counts "1" = true
        · simp [expectation_value, h0f, h1, hSne, hc0z, zero_sub, neg_div]
        · have h1f : countsHasKey counts "1" = false := by
            revert h1; cases countsHasKey counts "1" <;> simp
          have hc1z : countsGet counts "1" = 0 :=
            countsGet_eq_zero_of_not_hasKey h1f
          simp [expectation_value, h0f, h1f, hSne, hc0z, hc1z]
    · rw [le_div_iff₀ hSQpos]
      linarith
    · rw [div_le_one hSQpos]
      linarith
  · intro he
    subst he
    rfl
  · intro hne hzero
    cases hcounts : counts with
    | nil => exact absurd hcounts hne
    | cons p t =>
        subst hcounts
        by_cases h0 : countsHasKey (p :: t) "0" = true
        · simp only [expectation_value, h0, hzero, if_true, ite_true,
            eq_self_iff_true]
        · have ha := hsub p.1 (by simp)
          have ha1 : p.1 = "1" := by
            rcases ha with h | h
            · exfalso
              apply h0
              cases p with
              | mk a v =>
                  simp only at h
                  subst h
                  simp [countsHasKey, List.lookup]
            · exact h
          have h0f : countsHasKey (p :: t) "0" = false := by
            revert h0; cases countsHasKey (p :: t) "0" <;> simp
          have h1 : countsHasKey (p :: t) "1" = true := by
            cases p with
            | mk a v =>
                simp only at ha1
                subst ha1
                simp [countsHasKey, List.lookup]
          simp [expectation_value, h0f, h1, hzero]

/-- C8 (witness): the amended theorem evaluated at the dictionary with
three 0-outcomes and one 1-outcome: the expectation value is
`(3 - 1) / 4 = 1 / 2`. -/
theorem expectation_value_spec_witness :
    expectation_value [("0", 3), ("1", 1)] = some (1 / 2) := by
  have h := ((expectation_value_spec [("0", 3), ("1", 1)] (by decide) (by decide)).1
    (by decide)).1
  have hb : (("1" : String) == "0") = false := by decide
  rw [h]
  norm_num [countsGet, countsShots, List.lookup, hb]
